import Mathlib

/-!
Verification of the gift-panel frontend (Belagum/Telegram-gifts-autobuy).

The TypeScript/JavaScript sources under `src/frontend` and `src/unnamed` are
shallowly embedded below: pure functions become Lean functions, JavaScript
values that a function inspects are modelled by explicit inductive types
(`JsOpt` for optional/nullable DTO fields, `JSVal` for `unknown` values),
machine numbers are modelled by `Int`/`Rat`/`Nat`, and fallible paths return
`Option`.  The backend (Flask) is not part of the source tree except for its
migrations; the two backend behaviours that claims touch (the ChangeDetector
digest and the sticker route's 409 reply) are modelled from the spec and say
so in their doc comments.
-/

namespace TgGifts

/-! ## Shared modelling of JavaScript values -/

/-- A JavaScript field that may be absent, `undefined`, `null`, or hold a
typed value.  `absent`, `undefinedVal` and `null` all behave alike under the
nullish-coalescing operator `??`. -/
inductive JsOpt (α : Type) where
  | absent
  | undefinedVal
  | null
  | val (a : α)
deriving DecidableEq, Repr

/-- `x ?? null` as used by the DTO adapters: a present non-null value is kept,
everything else becomes `null` (here `none`). -/
def JsOpt.orNull {α : Type} : JsOpt α → Option α
  | .val a => some a
  | _ => none

/-- `x ?? d` for a default `d`: nullish values are replaced by the default. -/
def JsOpt.orD {α : Type} (x : JsOpt α) (d : α) : α :=
  match x with
  | .val a => a
  | _ => d

/-- A JavaScript value that is either a string or a number, as can reach
`String(dto.id)` at runtime. -/
inductive JsId where
  | str (s : String)
  | num (n : Int)
deriving DecidableEq, Repr

/-- `String(x)` for a string-or-number value. -/
def JsId.strForm : JsId → String
  | .str s => s
  | .num n => toString n

/-- JavaScript whitespace characters recognised by `String.prototype.trim`
(the common ones: space, tab, newline, carriage return, vertical tab,
form feed). -/
def isJsSpace (c : Char) : Bool :=
  c = ' ' || c = '\t' || c = '\n' || c = '\r' || c = '\x0b' || c = '\x0c'

/-- `String.prototype.trim` on a character list. -/
def trimChars (l : List Char) : List Char :=
  ((l.dropWhile isJsSpace).reverse.dropWhile isJsSpace).reverse

/-- Digit value of a decimal or hexadecimal digit character. -/
def digitVal (c : Char) : Option Nat :=
  if c.isDigit then some (c.toNat - 48)
  else if 'a' ≤ c ∧ c ≤ 'f' then some (c.toNat - 87)
  else if 'A' ≤ c ∧ c ≤ 'F' then some (c.toNat - 55)
  else none

/-- Parses a non-empty string of digits in the given base; `none` on an
empty string or an out-of-range digit. -/
def parseDigitsBase (base : Nat) (l : List Char) : Option Nat :=
  if l.isEmpty then none
  else
    l.foldl
      (fun acc c =>
        match acc, digitVal c with
        | some a, some d => if d < base then some (a * base + d) else none
        | _, _ => none)
      (some 0)

/-- Numeric value of a string of decimal digits (0 when empty). -/
def natFromDigits (l : List Char) : Nat :=
  l.foldl (fun a c => a * 10 + (c.toNat - 48)) 0

/-- Parses an unsigned decimal numeric literal — digits with an optional
fraction part and an optional signed exponent, `5.`, `.5` and `1e3`
included — requiring the whole input to be consumed.  `none` models a
value that is not a finite number. -/
def parseDecimal (l : List Char) : Option ℚ :=
  let p1 := l.span Char.isDigit
  let p2 :=
    match p1.2 with
    | '.' :: r => r.span Char.isDigit
    | r => ([], r)
  if p1.1.isEmpty ∧ p2.1.isEmpty then none
  else
    let mantissa : ℚ :=
      (natFromDigits p1.1 : ℚ) + (natFromDigits p2.1 : ℚ) / (10 : ℚ) ^ p2.1.length
    match p2.2 with
    | [] => some mantissa
    | e :: r =>
      if e = 'e' ∨ e = 'E' then
        let se : Int × List Char :=
          match r with
          | '+' :: t => (1, t)
          | '-' :: t => (-1, t)
          | t => (1, t)
        let ed := se.2.span Char.isDigit
        if ed.1.isEmpty ∨ ¬ ed.2.isEmpty then none
        else some (mantissa * (10 : ℚ) ^ (se.1 * (natFromDigits ed.1 : Int)))
      else none

/-- A trimmed string under `Number(string)`: empty is 0, unsigned
hexadecimal/octal/binary integer literals parse (a sign makes them `NaN`),
anything else must be a signed decimal literal.  `none` models a
non-finite result — `NaN`, or `±Infinity` for `Infinity` literals, which
`parseDecimal` likewise rejects; both make `Number.isFinite` fail. -/
def jsParseNumChars : List Char → Option ℚ
  | [] => some 0
  | '0' :: 'x' :: r => (parseDigitsBase 16 r).map (fun n => (n : ℚ))
  | '0' :: 'X' :: r => (parseDigitsBase 16 r).map (fun n => (n : ℚ))
  | '0' :: 'o' :: r => (parseDigitsBase 8 r).map (fun n => (n : ℚ))
  | '0' :: 'O' :: r => (parseDigitsBase 8 r).map (fun n => (n : ℚ))
  | '0' :: 'b' :: r => (parseDigitsBase 2 r).map (fun n => (n : ℚ))
  | '0' :: 'B' :: r => (parseDigitsBase 2 r).map (fun n => (n : ℚ))
  | '+' :: t => parseDecimal t
  | '-' :: t => (parseDecimal t).map (fun q => -q)
  | l => parseDecimal l

/-- `Number(string)` restricted to finite results: trim JavaScript
whitespace, then parse one numeric literal. -/
def jsParseNumber (s : String) : Option ℚ :=
  jsParseNumChars (trimChars s.data)

/-- Decimal digits of a fractional part `r` with `0 ≤ r < 1`, emitted until
the expansion terminates or the fuel runs out (the expansion of any
IEEE-754 double terminates; the cap only guards rationals that cannot arise
from JavaScript numbers). -/
def fracDigits : Nat → ℚ → String
  | 0, _ => ""
  | fuel + 1, r =>
    if r = 0 then ""
    else
      let r10 := r * 10
      let d := ⌊r10⌋
      toString d ++ fracDigits fuel (r10 - (d : ℚ))

/-- `String(n)` for a finite number: integers print without a fraction,
other values print sign, integer part and decimal expansion. -/
def jsNumToString (q : ℚ) : String :=
  if q.den = 1 then toString q.num
  else
    let sign := if q < 0 then "-" else ""
    let a := |q|
    let ip := ⌊a⌋
    sign ++ toString ip ++ "." ++ fracDigits 40 (a - (ip : ℚ))

/-! ## `src/unnamed/part_003` (messages.ts): remaining-time rendering — claim C10 -/

/-- A JavaScript `unknown` value, as inspected by the error-message helpers.
`vobj isError fields` models a plain object (`isError = false`) or an
`Error` instance (`isError = true`); its own enumerable string-keyed
properties are the association list `fields`.  Finite numbers are modelled
by rationals; the non-finite numbers `NaN` and `±Infinity` get their own
constructors. -/
inductive JSVal where
  | vstr (s : String)
  | vnum (q : ℚ)
  | vnumNaN
  | vnumInf (neg : Bool)
  | vbool (b : Bool)
  | vnull
  | vundefined
  | vobj (isError : Bool) (fields : List (String × JSVal))
  | varr (elems : List JSVal)

mutual

/-- `String(x)`: JavaScript string coercion (objects collapse to
`[object Object]`, arrays join their elements with commas). -/
def jsToString : JSVal → String
  | .vstr s => s
  | .vnum q => jsNumToString q
  | .vnumNaN => "NaN"
  | .vnumInf neg => cond neg "-Infinity" "Infinity"
  | .vbool b => cond b "true" "false"
  | .vnull => "null"
  | .vundefined => "undefined"
  | .vobj _ _ => "[object Object]"
  | .varr elems => String.intercalate "," (jsArrToStrings elems)

/-- Elementwise stringification used by `Array.prototype.join`: `null` and
`undefined` elements become empty strings. -/
def jsArrToStrings : List JSVal → List String
  | [] => []
  | x :: xs =>
    (match x with
     | .vnull => ""
     | .vundefined => ""
     | y => jsToString y) :: jsArrToStrings xs

end

/-- `typeof value === "number" ? value : Number(value)` followed by the
`Number.isFinite` test: `some q` is the finite numeric interpretation of
the value, `none` models a non-finite result (`NaN`/`±Infinity`, and hence
any value whose `Number` coercion is not finite).  Strings parse via
`jsParseNumber`; `null` and booleans coerce as in JavaScript; an array
coerces through its string form (`Number(a) = Number(String(a))`); plain
objects coerce to `NaN`. -/
def jsToNumber : JSVal → Option ℚ
  | .vnum q => some q
  | .vnumNaN => none
  | .vnumInf _ => none
  | .vbool b => some (cond b 1 0)
  | .vnull => some 0
  | .vundefined => none
  | .vstr s => jsParseNumber s
  | .vobj _ _ => none
  | .varr elems => jsParseNumber (jsToString (JSVal.varr elems))

/-- `formatRemainingSeconds` from `src/unnamed/part_003` lines 14-32: renders
a duration in seconds as Russian day/hour/minute/second components; returns
`null` when the input has no finite numeric interpretation. -/
def formatRemainingSeconds (value : JSVal) : Option String :=
  match jsToNumber value with
  | none => none
  | some seconds =>
    let remaining0 : ℕ := (max 0 ⌊seconds⌋).toNat
    let days := remaining0 / 86400
    let r1 := remaining0 % 86400
    let hours := r1 / 3600
    let r2 := r1 % 3600
    let minutes := r2 / 60
    let remaining := r2 % 60
    let parts : List String :=
      (if days ≠ 0 then [toString days ++ "д"] else []) ++
      (if hours ≠ 0 then [toString hours ++ "ч"] else []) ++
      (if minutes ≠ 0 then [toString minutes ++ "м"] else []) ++
      (if (days = 0 ∧ hours = 0 ∧ minutes = 0) ∨ remaining ≠ 0
       then [toString remaining ++ "с"] else [])
    some (String.intercalate " " parts)

/-! ## `src/unnamed/part_003`: account stage messages — claim C5 -/

/-- `ACCOUNT_STAGE_MESSAGES` from `src/unnamed/part_003` lines 211-218. -/
def ACCOUNT_STAGE_MESSAGES : String → Option String
  | "connect" => some "Соединение с Telegram…"
  | "profile" => some "Проверяем профиль…"
  | "stars" => some "Проверяем баланс звёзд…"
  | "premium" => some "Проверяем статус Premium…"
  | "save" => some "Сохраняем данные…"
  | "done" => some "Готово"
  | _ => none

/-- `resolveAccountStageMessage` from `src/unnamed/part_003` lines 261-266:
a nullish or empty stage yields the generic refresh message, a known stage
its specific message, anything else the fallback `Этап: <stage>`. -/
def resolveAccountStageMessage (stage : Option String) : String :=
  match stage with
  | none => "Обновление аккаунта…"
  | some s =>
    if s = "" then "Обновление аккаунта…"
    else
      match ACCOUNT_STAGE_MESSAGES s with
      | some m => m
      | none => "Этап: " ++ s

/-! ## `src/frontend/src/shared/api/adapters/index.ts`: `mapGift` — claim C3 -/

/-- `GiftDto` from `src/unnamed/part_005` lines 51-69 (the DTO fed to
`mapGift`).  Optional-and-nullable fields are `JsOpt`; `id` is a
string-or-number as it reaches `String(dto.id)`. -/
structure GiftDto where
  id : JsId
  title : String
  price : Int
  supply : Option Int
  is_limited : Bool
  available_amount : JsOpt Int
  total_amount : JsOpt Int
  limited_per_user : JsOpt Bool
  per_user_available : JsOpt Int
  per_user_remains : JsOpt Int
  require_premium : JsOpt Bool
  sticker_file_id : JsOpt String
  sticker_unique_id : JsOpt String
  sticker_mime : JsOpt String
  animated_url : Option String
  locks : JsOpt (List (String × Option String))
  locked_until_date : JsOpt String
deriving DecidableEq, Repr

/-- The frontend `Gift` model, as built by `mapGift`. -/
structure Gift where
  id : String
  title : String
  price : Int
  supply : Option Int
  isLimited : Bool
  animatedUrl : Option String
  availableAmount : Option Int
  totalAmount : Option Int
  limitedPerUser : Bool
  perUserAvailable : Option Int
  perUserRemains : Option Int
  requiresPremium : Bool
  stickerFileId : Option String
  stickerUniqueId : Option String
  stickerMime : Option String
  locks : Option (List (String × Option String))
  lockedUntilDate : Option String
deriving DecidableEq, Repr

/-- `mapGift` from `src/frontend/src/shared/api/adapters/index.ts`
lines 61-79. -/
def mapGift (dto : GiftDto) : Gift :=
  { id := dto.id.strForm
    title := dto.title
    price := dto.price
    supply := dto.supply
    isLimited := dto.is_limited
    animatedUrl := dto.animated_url
    availableAmount := dto.available_amount.orNull
    totalAmount := dto.total_amount.orNull
    limitedPerUser := dto.limited_per_user.orD false
    perUserAvailable := dto.per_user_available.orNull
    perUserRemains := dto.per_user_remains.orNull
    requiresPremium := dto.require_premium.orD false
    stickerFileId := dto.sticker_file_id.orNull
    stickerUniqueId := dto.sticker_unique_id.orNull
    stickerMime := dto.sticker_mime.orNull
    locks := dto.locks.orNull
    lockedUntilDate := dto.locked_until_date.orNull }

/-! ## `src/unnamed/part_011` (GiftsPage): `toggleAuto` — claim C8 -/

/-- `toggleAuto` from `src/unnamed/part_011` lines 174-184 (and
`src/frontend/src/pages/GiftsPage.jsx` lines 145-150): the successive values
assigned to the observable `autoRefresh` state.  With no accounts nothing is
assigned; otherwise the flag is flipped first and, when persisting fails,
flipped back. -/
def toggleAuto (hasAccounts auto persistOk : Bool) : List Bool :=
  if !hasAccounts then []
  else if persistOk then [!auto]
  else [!auto, auto]

/-- The observable value of the flag after the assignments in `states`,
starting from `init`. -/
def observedFlag (init : Bool) (states : List Bool) : Bool :=
  states.getLastD init

/-! ## `src/unnamed/part_033` (entities/accounts/api.ts): `listAccounts` — claim C7 -/

/-- `AccountDto` from `src/frontend/src/shared/api/dto/index.ts`
lines 15-23. -/
structure AccountDto where
  id : Int
  first_name : Option String
  username : Option String
  stars : Int
  is_premium : Bool
  premium_until : Option String
  last_checked_at : Option String
deriving DecidableEq, Repr

/-- The frontend `Account` model, as built by `mapAccount`. -/
structure Account where
  id : Int
  displayName : String
  username : Option String
  stars : Int
  isPremium : Bool
  premiumUntil : Option String
  lastCheckedAt : Option String
deriving DecidableEq, Repr

/-- `mapAccount` from `src/frontend/src/shared/api/adapters/index.ts`
lines 27-35. -/
def mapAccount (dto : AccountDto) : Account :=
  { id := dto.id
    displayName := dto.first_name.getD "Без имени"
    username := dto.username
    stars := dto.stars
    isPremium := dto.is_premium
    premiumUntil := dto.premium_until
    lastCheckedAt := dto.last_checked_at }

/-- A field of the poll response that `Array.isArray` is applied to: absent,
present but not an array, or an array of account DTOs. -/
inductive JsArrField where
  | absent
  | notArr
  | arr (xs : List AccountDto)
deriving DecidableEq, Repr

/-- One response of the `/accounts?wait=1` endpoint as `listAccounts`
inspects it: a bare array, a non-array object with optional `items`,
`accounts` and `state` fields, or some non-object primitive. -/
inductive AccountsResp where
  | arr (xs : List AccountDto)
  | obj (items accounts : JsArrField) (state : Option String)
  | prim
deriving DecidableEq, Repr

/-- The re-issue condition of `listAccounts` (`src/unnamed/part_033`
line 16): the response is a non-null, non-array object whose `state` field
equals `"refreshing"`. -/
def respIsRefreshing : AccountsResp → Bool
  | .obj _ _ st => st = some "refreshing"
  | _ => false

/-- The account-list extraction of `listAccounts` (`src/unnamed/part_033`
lines 20-26): a bare array, else an array-valued `items` field, else an
array-valued `accounts` field, else the empty list. -/
def respItems : AccountsResp → List AccountDto
  | .arr xs => xs
  | .obj (.arr xs) _ _ => xs
  | .obj _ (.arr xs) _ => xs
  | _ => []

/-- `listAccounts` from `src/unnamed/part_033` lines 9-29, applied to the
successive responses of the poll-with-wait request; `none` models the loop
still polling when the given responses run out. -/
def listAccounts : List AccountsResp → Option (List Account)
  | [] => none
  | r :: rest =>
    if respIsRefreshing r then listAccounts rest
    else some ((respItems r).map mapAccount)

/-! ## Sticker payload fetch — claim C2 -/

/-- The parts of an HTTP response that the sticker-loading client path
inspects: the status code and the `error` field of the JSON body (when the
body is JSON carrying one). -/
structure StickerHttpResponse where
  status : Nat
  errorField : Option String
deriving DecidableEq, Repr

/-- Modelled from the spec: the backend sticker-payload route
(`/api/gifts/sticker.lottie`) is not part of the source tree.  Per the spec
("returns the decoded animation JSON, or HTTP 409 with
`{error:"no_bot_token"}` when unavailable" and "if no bot token is
configured for the user, fail with `noBotToken`"), a request made while the
user has no bot token answers 409 with error field `no_bot_token`; with a
token configured it answers 200. -/
def stickerPayloadResponse (botToken : Option String) : StickerHttpResponse :=
  match botToken with
  | none => { status := 409, errorField := some "no_bot_token" }
  | some _ => { status := 200, errorField := none }

/-- `Response.ok`: status in the 200-299 range. -/
def responseOk (status : Nat) : Bool :=
  decide (200 ≤ status ∧ status < 300)

/-- Outcome of the `TgsThumb` fetch path for one response. -/
structure TgsFetchResult where
  invokedMissingToken : Bool
  failed : Bool
deriving DecidableEq, Repr

/-- The response handling of `TgsThumb` from `src/unnamed/part_011`
lines 51-61 (and `src/frontend/src/pages/GiftsPage.jsx` lines 53-59):
a 409 response invokes the missing-token handler exactly when the body's
`error` field is `"no_bot_token"` and then throws; any other non-OK status
throws a generic error without the handler; an OK status succeeds. -/
def tgsThumbHandle (resp : StickerHttpResponse) : TgsFetchResult :=
  if resp.status = 409 then
    { invokedMissingToken := decide (resp.errorField = some "no_bot_token")
      failed := true }
  else if !responseOk resp.status then
    { invokedMissingToken := false, failed := true }
  else
    { invokedMissingToken := false, failed := false }

/-! ## Auto-refresh timer of `GiftsPage` — claim C4 -/

/-- One firing of the auto-refresh timer of `src/unnamed/part_011`
lines 186-206: either the document was hidden (no refresh, reschedule at
once) or a refresh pass ran for `duration` seconds before rescheduling. -/
inductive RefreshTick where
  | hidden
  | pass (duration : Nat)
deriving DecidableEq, Repr

/-- The fixed auto-refresh interval (30000 ms in the source, in seconds
here). -/
def AUTO_REFRESH_INTERVAL : Nat := 30

/-- One timer firing: when it fired, and when `schedule()` re-armed the next
timer afterwards. -/
structure FireRecord where
  fire : Nat
  rearm : Nat
deriving DecidableEq, Repr

/-- The timing of the auto-refresh effect of `src/unnamed/part_011`
lines 186-206, starting from time `t`: `schedule()` arms a timeout of
`AUTO_REFRESH_INTERVAL`; when it fires with the document hidden it re-arms
immediately, otherwise it awaits the refresh pass and re-arms only once the
pass has completed. -/
def autoRefreshTrace : Nat → List RefreshTick → List FireRecord
  | _, [] => []
  | t, .hidden :: rest =>
    let f := t + AUTO_REFRESH_INTERVAL
    { fire := f, rearm := f } :: autoRefreshTrace f rest
  | t, .pass d :: rest =>
    let f := t + AUTO_REFRESH_INTERVAL
    { fire := f, rearm := f + d } :: autoRefreshTrace (f + d) rest

/-! ## `streamNdjson` — claim C6 -/

/-- Splits a buffer into its complete (newline-terminated) lines and the
trailing remainder after the last newline, exactly as the
`buffer.indexOf("\n")` loop of `streamNdjson` consumes it. -/
def splitLines : List Char → List (List Char) × List Char
  | [] => ([], [])
  | c :: rest =>
    let p := splitLines rest
    if c = '\n' then ([] :: p.1, p.2)
    else
      match p.1 with
      | [] => ([], c :: p.2)
      | l :: ls => ((c :: l) :: ls, p.2)

/-- Per-line delivery of `streamNdjson` (`src/unnamed/part_006`
lines 197-207): the line is trimmed, empty lines are skipped, and the
trimmed text is delivered exactly when `JSON.parse` (modelled by the
function `parse`) succeeds on it. -/
def deliverLine {J : Type} (parse : List Char → Option J) (l : List Char) :
    Option J :=
  let t := trimChars l
  if t = [] then none else parse t

/-- `streamNdjson` from `src/unnamed/part_006` lines 156-214 (and
`src/frontend/src/shared/api/dto/index.ts` lines 216-261), reduced to its
delivery behaviour: starting from `buffer`, each received chunk is appended
to the buffer, every complete line is trimmed, skipped when empty or
unparsable and delivered to `onEvent` otherwise, and the remainder stays
buffered; the list returned is the ordered sequence of `onEvent`
invocations. -/
def streamNdjson {J : Type} (parse : List Char → Option J) :
    List (List Char) → List Char → List J
  | [], _ => []
  | chunk :: rest, buffer =>
    let p := splitLines (buffer ++ chunk)
    p.1.filterMap (deliverLine parse) ++ streamNdjson parse rest p.2

/-! ## ChangeDetector — claim C1 -/

/-- Lexicographic boolean comparison of character lists, a total order used
as the canonical ordering of string gift ids. -/
def charListLe : List Char → List Char → Bool
  | [], _ => true
  | _ :: _, [] => false
  | a :: as, b :: bs =>
    if a < b then true
    else if b < a then false
    else charListLe as bs

/-- `≤` on strings via their character lists. -/
def strLeB (s t : String) : Bool :=
  charListLe s.data t.data

/-- Stable sort of a list by a key, under a boolean key comparison. -/
def sortByKey {α κ : Type} (le : κ → κ → Bool) (key : α → κ)
    (l : List α) : List α :=
  List.insertionSort (fun a b => le (key a) (key b) = true) l

/-- Modelled from the spec: the backend `Gift` value object of the merged
snapshot (the ChangeDetector itself is backend code absent from the source
tree).  Fields follow the spec's data model; `locks` maps linked-account
ids to nullable lock-expiry timestamps. -/
structure SnapGift where
  id : String
  title : String
  price : Int
  supply : Option Int
  isLimited : Bool
  availableAmount : Option Int
  totalAmount : Option Int
  perUserLimited : Bool
  perUserAvailable : Option Int
  perUserRemains : Option Int
  requiresPremiumTier : Bool
  stickerFileId : Option String
  stickerUniqueId : Option String
  stickerMime : Option String
  locks : List (Nat × Option Nat)
deriving DecidableEq, Repr

/-- Serialization of an optional integer field. -/
def serOptInt : Option Int → String
  | none => "null"
  | some n => toString n

/-- Serialization of an optional string field. -/
def serOptStr : Option String → String
  | none => "null"
  | some s => s

/-- Serialization of one lock entry. -/
def serLock : Nat × Option Nat → String
  | (aid, expiry) =>
    toString aid ++ "=" ++ (match expiry with
                            | none => "null"
                            | some e => toString e)

/-- Canonical serialization of one gift (its lock entries are expected to be
sorted already). -/
def serGift (g : SnapGift) : String :=
  g.id ++ "|" ++ g.title ++ "|" ++ toString g.price ++ "|" ++
  serOptInt g.supply ++ "|" ++ (cond g.isLimited "1" "0") ++ "|" ++
  serOptInt g.availableAmount ++ "|" ++ serOptInt g.totalAmount ++ "|" ++
  (cond g.perUserLimited "1" "0") ++ "|" ++
  serOptInt g.perUserAvailable ++ "|" ++ serOptInt g.perUserRemains ++ "|" ++
  (cond g.requiresPremiumTier "1" "0") ++ "|" ++
  serOptStr g.stickerFileId ++ "|" ++ serOptStr g.stickerUniqueId ++ "|" ++
  serOptStr g.stickerMime ++ "|" ++
  String.intercalate "," (g.locks.map serLock)

/-- Modelled from the spec: canonicalization of one gift sorts its lock
entries by account id. -/
def canonGift (g : SnapGift) : SnapGift :=
  { g with locks := sortByKey Nat.ble Prod.fst g.locks }

/-- Modelled from the spec: the ChangeDetector's canonical serialization of
a snapshot sorts lock entries by account id inside each gift and the gifts
by id, then serializes. -/
def canonSerialize (s : List SnapGift) : String :=
  String.intercalate ";"
    ((sortByKey charListLe (fun g => g.id.data) (s.map canonGift)).map serGift)

/-- A deterministic digest of a string (a 64-bit polynomial rolling hash). -/
def digestOfString (s : String) : Nat :=
  s.data.foldl (fun h c => (h * 31 + c.toNat) % 2 ^ 64) 5381

/-- Modelled from the spec: `hash(snapshot) -> digest`, computed by
canonicalizing (sort gifts by id, sort lock entries by account id) and
hashing the canonical serialization. -/
def hashSnapshot (s : List SnapGift) : Nat :=
  digestOfString (canonSerialize s)

/-- A gift with its lock map forgotten, to state that two gifts agree on
everything except the order of their lock entries. -/
def eraseLocks (g : SnapGift) : SnapGift :=
  { g with locks := [] }

/-- Two gifts carry the same content and equal lock maps up to entry order. -/
def giftEquiv (g1 g2 : SnapGift) : Prop :=
  eraseLocks g1 = eraseLocks g2 ∧ g1.locks.Perm g2.locks

/-! ## `src/unnamed/part_003` and
`src/frontend/src/shared/api/errorMessages.ts`: error messages — claim C9 -/

/-- A stand-in for `JSON.parse` success/failure used to exercise
`streamNdjson` on concrete streams: accepts even-length lines. -/
def parseStub (l : List Char) : Option (List Char) :=
  if l.length % 2 = 0 then some l else none

/-- A concrete gift DTO exercising present, null and absent fields. -/
def giftDtoEx : GiftDto :=
  { id := JsId.num 7
    title := "t"
    price := 25
    supply := some 100
    is_limited := true
    available_amount := JsOpt.val 5
    total_amount := JsOpt.null
    limited_per_user := JsOpt.absent
    per_user_available := JsOpt.undefinedVal
    per_user_remains := JsOpt.val 2
    require_premium := JsOpt.absent
    sticker_file_id := JsOpt.val "f"
    sticker_unique_id := JsOpt.null
    sticker_mime := JsOpt.absent
    animated_url := none
    locks := JsOpt.null
    locked_until_date := JsOpt.absent }

/-- A concrete account DTO. -/
def accountDtoEx : AccountDto :=
  { id := 3
    first_name := none
    username := some "u"
    stars := 10
    is_premium := false
    premium_until := none
    last_checked_at := some "2024" }

/-- A concrete snapshot gift with two lock entries. -/
def snapGiftA : SnapGift :=
  { id := "a"
    title := "A"
    price := 10
    supply := some 3
    isLimited := true
    availableAmount := some 1
    totalAmount := some 3
    perUserLimited := false
    perUserAvailable := none
    perUserRemains := none
    requiresPremiumTier := false
    stickerFileId := some "fa"
    stickerUniqueId := none
    stickerMime := none
    locks := [(1, some 5), (2, none)] }

/-- `snapGiftA` with its lock entries listed in the other order. -/
def snapGiftA2 : SnapGift :=
  { snapGiftA with locks := [(2, none), (1, some 5)] }

/-- A second concrete snapshot gift. -/
def snapGiftB : SnapGift :=
  { id := "b"
    title := "B"
    price := 20
    supply := none
    isLimited := false
    availableAmount := none
    totalAmount := none
    perUserLimited := true
    perUserAvailable := some 1
    perUserRemains := some 1
    requiresPremiumTier := true
    stickerFileId := none
    stickerUniqueId := some "ub"
    stickerMime := some "tgs"
    locks := [] }

/-! # Theorems -/

/-! ## Claim C5 -/

/-- C5 counterexample: for the spec-listed stage name `premiumStatus`,
`resolveAccountStageMessage` returns exactly the generic fallback
`Этап: premiumStatus` — the message table keys the premium stage as
`premium`, not `premiumStatus`. -/
theorem resolveAccountStageMessage_premiumStatus_generic :
    resolveAccountStageMessage (some "premiumStatus") = "Этап: premiumStatus" := by
  rfl

/-- C5 (amended): for every stage name actually keyed by the message table —
`connect`, `profile`, `stars`, `premium`, `save`, `done` —
`resolveAccountStageMessage` returns the stage-specific human-readable
message, which differs from the generic fallback of the form
`Этап: <stage>`. -/
theorem resolveAccountStageMessage_known_stages :
    (resolveAccountStageMessage (some "connect") = "Соединение с Telegram…" ∧
      resolveAccountStageMessage (some "connect") ≠ "Этап: connect") ∧
    (resolveAccountStageMessage (some "profile") = "Проверяем профиль…" ∧
      resolveAccountStageMessage (some "profile") ≠ "Этап: profile") ∧
    (resolveAccountStageMessage (some "stars") = "Проверяем баланс звёзд…" ∧
      resolveAccountStageMessage (some "stars") ≠ "Этап: stars") ∧
    (resolveAccountStageMessage (some "premium") = "Проверяем статус Premium…" ∧
      resolveAccountStageMessage (some "premium") ≠ "Этап: premium") ∧
    (resolveAccountStageMessage (some "save") = "Сохраняем данные…" ∧
      resolveAccountStageMessage (some "save") ≠ "Этап: save") ∧
    (resolveAccountStageMessage (some "done") = "Готово" ∧
      resolveAccountStageMessage (some "done") ≠ "Этап: done") := by
  refine ⟨⟨rfl, ?_⟩, ⟨rfl, ?_⟩, ⟨rfl, ?_⟩, ⟨rfl, ?_⟩, ⟨rfl, ?_⟩, ⟨rfl, ?_⟩⟩ <;> decide

/-! ## Claim C10 -/

/-- C10: for every value with a finite numeric interpretation `q`,
`formatRemainingSeconds` renders day/hour/minute/second components summing
to `max 0 ⌊q⌋` with the hour, minute and second components in range, where
the day/hour/minute components appear exactly when nonzero and the second
component appears exactly when it is nonzero or no other component is
shown; for every input without a finite numeric interpretation it returns
`null`. -/
theorem formatRemainingSeconds_spec :
    (∀ (v : JSVal) (q : ℚ), jsToNumber v = some q →
      ∃ d h m s : ℕ,
        d * 86400 + h * 3600 + m * 60 + s = (max 0 ⌊q⌋).toNat ∧
        h < 24 ∧ m < 60 ∧ s < 60 ∧
        formatRemainingSeconds v = some (String.intercalate " "
          ((if d ≠ 0 then [toString d ++ "д"] else []) ++
           (if h ≠ 0 then [toString h ++ "ч"] else []) ++
           (if m ≠ 0 then [toString m ++ "м"] else []) ++
           (if (d = 0 ∧ h = 0 ∧ m = 0) ∨ s ≠ 0
            then [toString s ++ "с"] else [])))) ∧
    (∀ v : JSVal, jsToNumber v = none → formatRemainingSeconds v = none) := by
  constructor
  · intro v q hv
    refine ⟨(max 0 ⌊q⌋).toNat / 86400, (max 0 ⌊q⌋).toNat % 86400 / 3600,
      (max 0 ⌊q⌋).toNat % 86400 % 3600 / 60,
      (max 0 ⌊q⌋).toNat % 86400 % 3600 % 60, ?_, ?_, ?_, ?_, ?_⟩
    · omega
    · omega
    · omega
    · omega
    · simp only [formatRemainingSeconds, hv]
  · intro v hv
    simp only [formatRemainingSeconds, hv]

/-- C10 witness: 93784 seconds render as one day, two hours, three minutes
and four seconds, and an object input yields `null`. -/
theorem formatRemainingSeconds_spec_witness :
    (∃ d h m s : ℕ,
        d * 86400 + h * 3600 + m * 60 + s = (max 0 ⌊(93784 : ℚ)⌋).toNat ∧
        h < 24 ∧ m < 60 ∧ s < 60 ∧
        formatRemainingSeconds (JSVal.vnum 93784) = some (String.intercalate " "
          ((if d ≠ 0 then [toString d ++ "д"] else []) ++
           (if h ≠ 0 then [toString h ++ "ч"] else []) ++
           (if m ≠ 0 then [toString m ++ "м"] else []) ++
           (if (d = 0 ∧ h = 0 ∧ m = 0) ∨ s ≠ 0
            then [toString s ++ "с"] else [])))) ∧
    formatRemainingSeconds (JSVal.vobj false []) = none :=
  ⟨formatRemainingSeconds_spec.1 (JSVal.vnum 93784) 93784 (by norm_num [jsToNumber]),
   formatRemainingSeconds_spec.2 (JSVal.vobj false []) (by rfl)⟩

/-! ## Claim C3 -/

/-- C3: `mapGift` returns the string form of the DTO id; each of the eight
nullable pass-through fields equals the DTO field when present and non-null
and `null` when absent, undefined or null; and the two boolean fields
default to `false` when absent. -/
theorem mapGift_spec (d : GiftDto) :
    (mapGift d).id = d.id.strForm ∧
    (∀ v, d.available_amount = JsOpt.val v → (mapGift d).availableAmount = some v) ∧
    (d.available_amount = JsOpt.absent ∨ d.available_amount = JsOpt.undefinedVal ∨
        d.available_amount = JsOpt.null → (mapGift d).availableAmount = none) ∧
    (∀ v, d.total_amount = JsOpt.val v → (mapGift d).totalAmount = some v) ∧
    (d.total_amount = JsOpt.absent ∨ d.total_amount = JsOpt.undefinedVal ∨
        d.total_amount = JsOpt.null → (mapGift d).totalAmount = none) ∧
    (∀ v, d.per_user_available = JsOpt.val v → (mapGift d).perUserAvailable = some v) ∧
    (d.per_user_available = JsOpt.absent ∨ d.per_user_available = JsOpt.undefinedVal ∨
        d.per_user_available = JsOpt.null → (mapGift d).perUserAvailable = none) ∧
    (∀ v, d.per_user_remains = JsOpt.val v → (mapGift d).perUserRemains = some v) ∧
    (d.per_user_remains = JsOpt.absent ∨ d.per_user_remains = JsOpt.undefinedVal ∨
        d.per_user_remains = JsOpt.null → (mapGift d).perUserRemains = none) ∧
    (∀ v, d.sticker_file_id = JsOpt.val v → (mapGift d).stickerFileId = some v) ∧
    (d.sticker_file_id = JsOpt.absent ∨ d.sticker_file_id = JsOpt.undefinedVal ∨
        d.sticker_file_id = JsOpt.null → (mapGift d).stickerFileId = none) ∧
    (∀ v, d.sticker_unique_id = JsOpt.val v → (mapGift d).stickerUniqueId = some v) ∧
    (d.sticker_unique_id = JsOpt.absent ∨ d.sticker_unique_id = JsOpt.undefinedVal ∨
        d.sticker_unique_id = JsOpt.null → (mapGift d).stickerUniqueId = none) ∧
    (∀ v, d.sticker_mime = JsOpt.val v → (mapGift d).stickerMime = some v) ∧
    (d.sticker_mime = JsOpt.absent ∨ d.sticker_mime = JsOpt.undefinedVal ∨
        d.sticker_mime = JsOpt.null → (mapGift d).stickerMime = none) ∧
    (∀ v, d.locks = JsOpt.val v → (mapGift d).locks = some v) ∧
    (d.locks = JsOpt.absent ∨ d.locks = JsOpt.undefinedVal ∨ d.locks = JsOpt.null →
        (mapGift d).locks = none) ∧
    (d.require_premium = JsOpt.absent → (mapGift d).requiresPremium = false) ∧
    (d.limited_per_user = JsOpt.absent → (mapGift d).limitedPerUser = false) := by
  refine ⟨rfl, ?_, ?_, ?_, ?_, ?_, ?_, ?_, ?_, ?_, ?_, ?_, ?_, ?_, ?_, ?_, ?_, ?_, ?_⟩
  all_goals
    first
    | (intro v hv; simp [mapGift, hv, JsOpt.orNull])
    | (rintro (h | h | h) <;> simp [mapGift, h, JsOpt.orNull])
    | (intro h; simp [mapGift, h, JsOpt.orD])

/-- C3 witness: the concrete DTO `giftDtoEx` maps with its present field
kept, its null and absent fields nulled, and its absent booleans false. -/
theorem mapGift_spec_witness :
    (mapGift giftDtoEx).id = "7" ∧
    (mapGift giftDtoEx).availableAmount = some 5 ∧
    (mapGift giftDtoEx).totalAmount = none ∧
    (mapGift giftDtoEx).requiresPremium = false ∧
    (mapGift giftDtoEx).limitedPerUser = false :=
  ⟨(mapGift_spec giftDtoEx).1,
   (mapGift_spec giftDtoEx).2.1 5 rfl,
   (mapGift_spec giftDtoEx).2.2.2.2.1 (Or.inr (Or.inr rfl)),
   (mapGift_spec giftDtoEx).2.2.2.2.2.2.2.2.2.2.2.2.2.2.2.2.2.1 rfl,
   (mapGift_spec giftDtoEx).2.2.2.2.2.2.2.2.2.2.2.2.2.2.2.2.2.2 rfl⟩

/-! ## Claim C8 -/

/-- C8: with at least one account, toggling auto-refresh first assigns the
flipped value to the observable flag; when persisting fails the observable
flag ends at its previous value, and when persisting succeeds it keeps the
new value. -/
theorem toggleAuto_spec (hasAccounts auto persistOk : Bool)
    (h : hasAccounts = true) :
    (toggleAuto hasAccounts auto persistOk).head? = some (!auto) ∧
    (persistOk = false →
      observedFlag auto (toggleAuto hasAccounts auto persistOk) = auto) ∧
    (persistOk = true →
      observedFlag auto (toggleAuto hasAccounts auto persistOk) = !auto) := by
  subst h
  cases persistOk <;> simp [toggleAuto, observedFlag]

/-- C8 witness: with accounts present and auto-refresh off, a failing
persist leaves the flag off after first flipping it on. -/
theorem toggleAuto_spec_witness :
    (toggleAuto true false false).head? = some true ∧
    observedFlag false (toggleAuto true false false) = false :=
  ⟨(toggleAuto_spec true false false rfl).1,
   (toggleAuto_spec true false false rfl).2.1 rfl⟩

/-! ## Claim C2 -/

/-- C2: with no bot token configured the sticker route answers 409 with
body error `no_bot_token` (route modelled from the spec) and the client
path invokes its missing-token handler on that response; in general the
handler is invoked exactly on a 409 whose body error is `no_bot_token`,
and every other non-OK status is a generic failure without the handler. -/
theorem tgsThumb_noBotToken_spec :
    stickerPayloadResponse none =
      { status := 409, errorField := some "no_bot_token" } ∧
    (tgsThumbHandle (stickerPayloadResponse none)).invokedMissingToken = true ∧
    (∀ resp : StickerHttpResponse,
      (tgsThumbHandle resp).invokedMissingToken = true ↔
        resp.status = 409 ∧ resp.errorField = some "no_bot_token") ∧
    (∀ resp : StickerHttpResponse,
      responseOk resp.status = false → resp.status ≠ 409 →
        tgsThumbHandle resp = { invokedMissingToken := false, failed := true }) := by
  refine ⟨rfl, rfl, ?_, ?_⟩
  · intro resp
    unfold tgsThumbHandle
    split_ifs with h1 h2
    · simp [decide_eq_true_iff, h1]
    · simp [h1]
    · simp [h1]
  · intro resp hok h409
    simp [tgsThumbHandle, h409, hok]

/-- C2 witness: a 500 response is a generic failure without the handler,
and a 409 with a different body error does not invoke the handler. -/
theorem tgsThumb_noBotToken_spec_witness :
    tgsThumbHandle { status := 500, errorField := none } =
      { invokedMissingToken := false, failed := true } ∧
    ¬ ((tgsThumbHandle { status := 409, errorField := some "other" }).invokedMissingToken = true) :=
  ⟨tgsThumb_noBotToken_spec.2.2.2 { status := 500, errorField := none }
      (by decide) (by decide),
   fun hinv =>
     absurd ((tgsThumb_noBotToken_spec.2.2.1 _).mp hinv).2 (by decide)⟩

/-! ## Claim C7 -/

/-- C7: `listAccounts` keeps re-issuing the poll request while responses
are non-array objects whose `state` is `refreshing`, and the first other
response determines the result: the account list mapped from a bare array,
else from an array-valued `items` field, else from an array-valued
`accounts` field, else the empty list — never the refreshing marker. -/
theorem listAccounts_spec (pre : List AccountsResp) (r : AccountsResp)
    (rest : List AccountsResp)
    (hpre : ∀ x ∈ pre, respIsRefreshing x = true)
    (hr : respIsRefreshing r = false) :
    listAccounts (pre ++ r :: rest) = some ((respItems r).map mapAccount) ∧
    (∀ xs, respItems (AccountsResp.arr xs) = xs) ∧
    (∀ accs st xs, respItems (AccountsResp.obj (JsArrField.arr xs) accs st) = xs) ∧
    (∀ its st xs, (∀ ys, its ≠ JsArrField.arr ys) →
      respItems (AccountsResp.obj its (JsArrField.arr xs) st) = xs) ∧
    (∀ its accs st, (∀ ys, its ≠ JsArrField.arr ys) →
      (∀ ys, accs ≠ JsArrField.arr ys) →
      respItems (AccountsResp.obj its accs st) = []) := by
  refine ⟨?_, fun xs => rfl, fun accs st xs => by cases accs <;> rfl, ?_, ?_⟩
  · induction pre with
    | nil => simp [listAccounts, hr]
    | cons x xs ih =>
      have hx := hpre x (List.mem_cons_self x xs)
      have ih2 := ih (fun y hy => hpre y (List.mem_cons_of_mem x hy))
      simpa [listAccounts, hx] using ih2
  · intro its st xs hits
    cases its with
    | arr ys => exact absurd rfl (hits ys)
    | absent => rfl
    | notArr => rfl
  · intro its accs st hits haccs
    cases its with
    | arr ys => exact absurd rfl (hits ys)
    | absent =>
      cases accs with
      | arr ys => exact absurd rfl (haccs ys)
      | absent => rfl
      | notArr => rfl
    | notArr =>
      cases accs with
      | arr ys => exact absurd rfl (haccs ys)
      | absent => rfl
      | notArr => rfl

/-- C7 witness: one refreshing object response followed by an
`accounts`-field response yields the mapped account list. -/
theorem listAccounts_spec_witness :
    listAccounts
      [AccountsResp.obj JsArrField.absent JsArrField.absent (some "refreshing"),
       AccountsResp.obj JsArrField.notArr (JsArrField.arr [accountDtoEx]) (some "ready")] =
      some [mapAccount accountDtoEx] :=
  (listAccounts_spec
      [AccountsResp.obj JsArrField.absent JsArrField.absent (some "refreshing")]
      (AccountsResp.obj JsArrField.notArr (JsArrField.arr [accountDtoEx]) (some "ready"))
      [] (by decide) (by decide)).1

/-! ## Claim C4 -/

/-- Head fire time of an auto-refresh trace: the first timer firing after
time `t` happens at `t + AUTO_REFRESH_INTERVAL`. -/
theorem autoRefreshTrace_head (t : Nat) (ticks : List RefreshTick) :
    ∀ rec ∈ (autoRefreshTrace t ticks).head?,
      rec.fire = t + AUTO_REFRESH_INTERVAL := by
  cases ticks with
  | nil => simp [autoRefreshTrace]
  | cons tick rest =>
    cases tick <;> simp [autoRefreshTrace]

/-- C4: along any run of the auto-refresh effect, each timer firing is
scheduled exactly `AUTO_REFRESH_INTERVAL` after the point where the
previous callback re-armed the timer; a refresh pass re-arms only at its
completion time (fire time plus pass duration, never the previous
deadline); hence consecutive fires are at least the interval apart and a
slow pass cannot queue an immediate catch-up pass. -/
theorem autoRefreshTrace_spec (t : Nat) (ticks : List RefreshTick) :
    List.Chain' (fun a b => b.fire = a.rearm + AUTO_REFRESH_INTERVAL)
      (autoRefreshTrace t ticks) ∧
    List.Forall₂ (fun tick rec =>
      match tick with
      | RefreshTick.pass d => rec.rearm = rec.fire + d
      | RefreshTick.hidden => rec.rearm = rec.fire)
      ticks (autoRefreshTrace t ticks) ∧
    List.Chain' (fun a b => a.fire + AUTO_REFRESH_INTERVAL ≤ b.fire)
      (autoRefreshTrace t ticks) := by
  induction ticks generalizing t with
  | nil => exact ⟨List.chain'_nil, List.Forall₂.nil, List.chain'_nil⟩
  | cons tick rest ih =>
    obtain ⟨ih1, ih2, ih3⟩ :=
      ih (match tick with
          | RefreshTick.hidden => t + AUTO_REFRESH_INTERVAL
          | RefreshTick.pass d => t + AUTO_REFRESH_INTERVAL + d)
    cases tick with
    | hidden =>
      refine ⟨List.chain'_cons'.mpr ⟨?_, ih1⟩, List.Forall₂.cons rfl ih2,
        List.chain'_cons'.mpr ⟨?_, ih3⟩⟩
      · intro b hb
        exact autoRefreshTrace_head _ rest b hb
      · intro b hb
        have hfb := autoRefreshTrace_head _ rest b hb
        dsimp only at hfb ⊢
        omega
    | pass d =>
      refine ⟨List.chain'_cons'.mpr ⟨?_, ih1⟩, List.Forall₂.cons rfl ih2,
        List.chain'_cons'.mpr ⟨?_, ih3⟩⟩
      · intro b hb
        exact autoRefreshTrace_head _ rest b hb
      · intro b hb
        have hfb := autoRefreshTrace_head _ rest b hb
        dsimp only at hfb ⊢
        omega

/-! ## Claim C6 -/

/-- Splitting a concatenation: the complete lines of `x ++ y` are the
complete lines of `x` followed by the complete lines of `x`'s remainder
prepended to `y`, and the final remainder comes from the latter. -/
theorem splitLines_append (x y : List Char) :
    splitLines (x ++ y) =
      ((splitLines x).1 ++ (splitLines ((splitLines x).2 ++ y)).1,
       (splitLines ((splitLines x).2 ++ y)).2) := by
  induction x with
  | nil => simp [splitLines]
  | cons c x ih =>
    by_cases hc : c = '\n'
    · subst hc
      simp [splitLines, ih]
    · rcases h1 : (splitLines x).1 with _ | ⟨l, ls⟩
      · rcases h2 : (splitLines ((splitLines x).2 ++ y)).1 with _ | ⟨m, ms⟩ <;>
          simp [splitLines, hc, ih, h1, h2]
      · simp [splitLines, hc, ih, h1]

/-- A buffer without a newline splits into no complete lines and itself. -/
theorem splitLines_of_no_newline (x : List Char) (h : '\n' ∉ x) :
    splitLines x = ([], x) := by
  induction x with
  | nil => rfl
  | cons c rest ih =>
    have hc : ¬ c = '\n' := fun hch => h (hch ▸ List.mem_cons_self c rest)
    have hr : '\n' ∉ rest := fun hm => h (List.mem_cons_of_mem c hm)
    simp [splitLines, hc, ih hr]

/-- The remainder after splitting never contains a newline. -/
theorem splitLines_rem_no_newline (x : List Char) :
    '\n' ∉ (splitLines x).2 := by
  induction x with
  | nil => simp [splitLines]
  | cons c rest ih =>
    by_cases hc : c = '\n'
    · subst hc; simpa [splitLines] using ih
    · rcases h1 : (splitLines rest).1 with _ | ⟨l, ls⟩
      · simp only [splitLines, hc, if_false, h1]
        intro hm
        rcases List.mem_cons.mp hm with h | h
        · exact hc h.symm
        · exact ih h
      · simpa [splitLines, hc, h1] using ih

/-- Buffered delivery equals whole-stream delivery: starting from a
newline-free buffer, the events delivered chunk-by-chunk are exactly the
deliverable complete lines of the buffer followed by the whole remaining
stream. -/
theorem streamNdjson_buffered {J : Type} (parse : List Char → Option J)
    (chunks : List (List Char)) :
    ∀ buffer : List Char, '\n' ∉ buffer →
      streamNdjson parse chunks buffer =
        (splitLines (buffer ++ chunks.flatten)).1.filterMap (deliverLine parse) := by
  induction chunks with
  | nil =>
    intro buffer h
    simp [streamNdjson, splitLines_of_no_newline _ h]
  | cons c rest ih =>
    intro buffer h
    rw [streamNdjson, ih _ (splitLines_rem_no_newline (buffer ++ c)),
      List.flatten_cons, ← List.append_assoc,
      splitLines_append (buffer ++ c) rest.flatten, List.filterMap_append]

/-- C6: over any chunking of the byte stream, `streamNdjson` delivers via
`onEvent` exactly the trimmed, non-empty, parsable complete
(newline-terminated) lines of the stream, in stream order — unparsable
lines are skipped without stopping later deliveries, and trailing text
after the last newline is never delivered (appending a newline-free final
chunk changes nothing). -/
theorem streamNdjson_spec {J : Type} (parse : List Char → Option J)
    (chunks : List (List Char)) :
    streamNdjson parse chunks [] =
      (splitLines chunks.flatten).1.filterMap (deliverLine parse) ∧
    (∀ junk : List Char, '\n' ∉ junk →
      streamNdjson parse (chunks ++ [junk]) [] = streamNdjson parse chunks []) := by
  constructor
  · simpa using streamNdjson_buffered parse chunks [] (by simp)
  · intro junk hj
    have h1 := streamNdjson_buffered parse (chunks ++ [junk]) [] (by simp)
    have h2 := streamNdjson_buffered parse chunks [] (by simp)
    rw [h1, h2]
    simp only [List.nil_append, List.flatten_append, List.flatten_cons,
      List.flatten_nil, List.append_nil]
    rw [splitLines_append chunks.flatten junk,
      splitLines_of_no_newline ((splitLines chunks.flatten).2 ++ junk)
        (by
          intro hm
          rcases List.mem_append.mp hm with h | h
          · exact splitLines_rem_no_newline chunks.flatten h
          · exact hj h)]
    simp

/-- C6 witness: delivery on a concrete chunked stream, with an unparsable
line skipped and trailing junk ignored. -/
theorem streamNdjson_spec_witness :
    streamNdjson parseStub ([['a', 'b', '\n', 'x'], ['\n', 'c', 'd', '\n']] ++ [['z', 'z']]) [] =
      streamNdjson parseStub [['a', 'b', '\n', 'x'], ['\n', 'c', 'd', '\n']] [] :=
  (streamNdjson_spec parseStub [['a', 'b', '\n', 'x'], ['\n', 'c', 'd', '\n']]).2
    ['z', 'z'] (by decide)

/-! ## Claim C1 -/

/-- `charListLe` is total. -/
theorem charListLe_total :
    ∀ x y : List Char, charListLe x y = true ∨ charListLe y x = true := by
  intro x
  induction x with
  | nil => intro y; left; rfl
  | cons a as ih =>
    intro y
    cases y with
    | nil => right; rfl
    | cons b bs =>
      rcases lt_trichotomy a b with h | h | h
      · left; simp [charListLe, h]
      · subst h
        rcases ih bs with h2 | h2
        · left; simpa [charListLe, lt_self_iff_false] using h2
        · right; simpa [charListLe, lt_self_iff_false] using h2
      · right; simp [charListLe, h]

/-- `charListLe` is transitive. -/
theorem charListLe_trans :
    ∀ x y z : List Char, charListLe x y = true → charListLe y z = true →
      charListLe x z = true := by
  intro x
  induction x with
  | nil => intro y z _ _; rfl
  | cons a as ih =>
    intro y z hxy hyz
    cases y with
    | nil => simp [charListLe] at hxy
    | cons b bs =>
      cases z with
      | nil => simp [charListLe] at hyz
      | cons c cs =>
        by_cases hab : a < b
        · by_cases hbc : b < c
          · simp [charListLe, lt_trans hab hbc]
          · by_cases hcb : c < b
            · simp [charListLe, hbc, hcb] at hyz
            · have hbc2 : b = c := le_antisymm (not_lt.mp hcb) (not_lt.mp hbc)
              subst hbc2
              simp [charListLe, hab]
        · by_cases hba : b < a
          · simp [charListLe, hab, hba] at hxy
          · have hab2 : a = b := le_antisymm (not_lt.mp hba) (not_lt.mp hab)
            subst hab2
            simp only [charListLe, lt_self_iff_false, if_false] at hxy
            by_cases hac : a < c
            · simp [charListLe, hac]
            · by_cases hca : c < a
              · simp [charListLe, hac, hca] at hyz
              · have hac2 : a = c := le_antisymm (not_lt.mp hca) (not_lt.mp hac)
                subst hac2
                simp only [charListLe, lt_self_iff_false, if_false] at hyz ⊢
                exact ih bs cs hxy hyz

/-- `charListLe` is antisymmetric. -/
theorem charListLe_antisymm :
    ∀ x y : List Char, charListLe x y = true → charListLe y x = true → x = y := by
  intro x
  induction x with
  | nil =>
    intro y _ hyx
    cases y with
    | nil => rfl
    | cons b bs => simp [charListLe] at hyx
  | cons a as ih =>
    intro y hxy hyx
    cases y with
    | nil => simp [charListLe] at hxy
    | cons b bs =>
      by_cases hab : a < b
      · simp [charListLe, hab, hab.asymm] at hyx
      · by_cases hba : b < a
        · simp [charListLe, hab, hba] at hxy
        · have hab2 : a = b := le_antisymm (not_lt.mp hba) (not_lt.mp hab)
          subst hab2
          simp only [charListLe, lt_self_iff_false, if_false] at hxy hyx
          rw [ih bs hxy hyx]

/-- Sorting by a key under a total, transitive comparison is invariant under
permutation of the input whenever the keys are pairwise distinct. -/
theorem sortByKey_eq_of_perm {α κ : Type} (le : κ → κ → Bool) (key : α → κ)
    (htot : ∀ x y, le x y = true ∨ le y x = true)
    (htr : ∀ x y z, le x y = true → le y z = true → le x z = true)
    (hanti : ∀ x y, le x y = true → le y x = true → x = y)
    {l1 l2 : List α} (hperm : l1.Perm l2) (hnd : (l1.map key).Nodup) :
    sortByKey le key l1 = sortByKey le key l2 := by
  haveI : IsTotal α (fun a b => le (key a) (key b) = true) :=
    ⟨fun a b => htot (key a) (key b)⟩
  haveI : IsTrans α (fun a b => le (key a) (key b) = true) :=
    ⟨fun a b c hab hbc => htr (key a) (key b) (key c) hab hbc⟩
  haveI : IsAntisymm α
      (fun a b => le (key a) (key b) = true ∧ key a ≠ key b) :=
    ⟨fun a b h1 h2 => absurd (hanti (key a) (key b) h1.1 h2.1) h1.2⟩
  have p1 : (sortByKey le key l1).Perm l1 := List.perm_insertionSort _ l1
  have p2 : (sortByKey le key l2).Perm l2 := List.perm_insertionSort _ l2
  have p12 : (sortByKey le key l1).Perm (sortByKey le key l2) :=
    p1.trans (hperm.trans p2.symm)
  have hs1 : List.Sorted (fun a b => le (key a) (key b) = true)
      (sortByKey le key l1) := List.sorted_insertionSort _ l1
  have hs2 : List.Sorted (fun a b => le (key a) (key b) = true)
      (sortByKey le key l2) := List.sorted_insertionSort _ l2
  have nd1 : ((sortByKey le key l1).map key).Nodup := ((p1.map key).symm).nodup hnd
  have nd2 : ((sortByKey le key l2).map key).Nodup := (p12.map key).nodup nd1
  have pw1 : (sortByKey le key l1).Pairwise (fun a b => key a ≠ key b) :=
    List.pairwise_map.mp nd1
  have pw2 : (sortByKey le key l2).Pairwise (fun a b => key a ≠ key b) :=
    List.pairwise_map.mp nd2
  exact List.eq_of_perm_of_sorted p12 (List.Pairwise.and hs1 pw1)
    (List.Pairwise.and hs2 pw2)

/-- Canonicalization identifies gifts that agree up to lock-entry order,
provided the lock map has no duplicate account ids. -/
theorem canonGift_eq_of_equiv {g1 g2 : SnapGift} (h : giftEquiv g1 g2)
    (hnd : (g1.locks.map Prod.fst).Nodup) : canonGift g1 = canonGift g2 := by
  obtain ⟨he, hp⟩ := h
  have hsort : sortByKey Nat.ble Prod.fst g1.locks =
      sortByKey Nat.ble Prod.fst g2.locks :=
    sortByKey_eq_of_perm Nat.ble Prod.fst
      (fun x y => by
        rcases Nat.le_total x y with h | h
        · left; simpa [Nat.ble_eq] using h
        · right; simpa [Nat.ble_eq] using h)
      (fun x y z hxy hyz => by
        simp only [Nat.ble_eq] at hxy hyz ⊢
        omega)
      (fun x y hxy hyx => by
        simp only [Nat.ble_eq] at hxy hyx
        omega)
      hp hnd
  have e1 : canonGift g1 =
      { eraseLocks g1 with locks := sortByKey Nat.ble Prod.fst g1.locks } := rfl
  have e2 : canonGift g2 =
      { eraseLocks g2 with locks := sortByKey Nat.ble Prod.fst g2.locks } := rfl
  rw [e1, e2, he, hsort]

/-- Pointwise canonicalization along a `Forall₂` of gift equivalences. -/
theorem map_canonGift_eq_of_forall2 :
    ∀ {m s : List SnapGift}, List.Forall₂ giftEquiv m s →
      (∀ g ∈ m, (g.locks.map Prod.fst).Nodup) →
      m.map canonGift = s.map canonGift := by
  intro m s h
  induction h with
  | nil => intro _; rfl
  | @cons a b l1 l2 h12 htail ih =>
    intro hnd
    simp only [List.map_cons]
    rw [canonGift_eq_of_equiv h12 (hnd _ (List.mem_cons_self _ _)),
      ih (fun g hg => hnd g (List.mem_cons_of_mem _ hg))]

/-- C1: the ChangeDetector digest (modelled from the spec: canonicalize by
sorting gifts by id and lock entries by account id, then hash the canonical
serialization) is the same for two snapshots that contain the same gifts in
different orders with equal lock maps inserted in different orders, given
the spec's invariants that gift ids are unique in a snapshot and lock maps
are keyed by account id. -/
theorem hashSnapshot_order_invariant
    (s1 s2 mid : List SnapGift)
    (hperm : s1.Perm mid)
    (hpair : List.Forall₂ giftEquiv mid s2)
    (hids : (s1.map SnapGift.id).Nodup)
    (hlocks : ∀ g ∈ s1, (g.locks.map Prod.fst).Nodup) :
    hashSnapshot s1 = hashSnapshot s2 := by
  have hmidlocks : ∀ g ∈ mid, (g.locks.map Prod.fst).Nodup :=
    fun g hg => hlocks g (hperm.mem_iff.mpr hg)
  have hmap : mid.map canonGift = s2.map canonGift :=
    map_canonGift_eq_of_forall2 hpair hmidlocks
  have hperm2 : (s1.map canonGift).Perm (s2.map canonGift) := by
    have h := hperm.map canonGift
    rwa [hmap] at h
  have hnd : ((s1.map canonGift).map (fun g => g.id.data)).Nodup := by
    have h1 : (s1.map canonGift).map (fun g => g.id.data) =
        (s1.map SnapGift.id).map String.data := by
      rw [List.map_map, List.map_map]
      rfl
    rw [h1]
    exact hids.map (fun a b h => String.ext h)
  have hsorted : sortByKey charListLe (fun g => g.id.data) (s1.map canonGift) =
      sortByKey charListLe (fun g => g.id.data) (s2.map canonGift) :=
    sortByKey_eq_of_perm charListLe (fun g => g.id.data)
      charListLe_total charListLe_trans charListLe_antisymm hperm2 hnd
  unfold hashSnapshot canonSerialize
  rw [hsorted]

/-- C1 witness: a concrete two-gift snapshot hashed equal to its reordering
with reordered lock entries. -/
theorem hashSnapshot_order_invariant_witness :
    hashSnapshot [snapGiftA, snapGiftB] = hashSnapshot [snapGiftB, snapGiftA2] :=
  hashSnapshot_order_invariant [snapGiftA, snapGiftB] [snapGiftB, snapGiftA2]
    [snapGiftB, snapGiftA]
    (by decide)
    (List.Forall₂.cons ⟨by decide, by decide⟩
      (List.Forall₂.cons ⟨by decide, by decide⟩ List.Forall₂.nil))
    (by decide)
    (by decide)

/-! ## Claim C9 -/

end TgGifts

